import Mathlib

/-!
Verification of the network-monitoring engine of `monitoramento.py`.

The development shallowly embeds the probing/statistics/anomaly-detection
engine (`NetworkMonitor`) and its concurrency manager
(`DualWiFiMonitorManager`) as executable Lean definitions over exact
rational arithmetic, and proves or refutes the frozen behavioural claims
about them.

Modelling conventions:
  * Python floats are modelled as exact rationals (`ℚ`).
  * Because the library's `Rat.add`, `Rat.mul`, ... are `@[irreducible]`
    (so closed terms built from them cannot be evaluated by `decide`), the
    embedding computes with kernel-reducible wrappers `qAdd`, `qSub`,
    `qMul`, `qDiv` that are proved equal to `+`, `-`, `*`, `/` below; all
    algebraic reasoning goes through those bridge equations.
  * `collections.deque(maxlen = k)` is a `List` with `dequeAppend k`.
  * `statistics.stdev` takes a square root, which is irrational; the
    detector only ever compares `latency > mean + mult * stdev`, and the
    embedding encodes that comparison exactly by squaring
    (`statFires`), which is equivalent for the nonnegative multiplier
    and nonnegative variance the program uses.
  * Wall-clock timestamps are `Timestamp` values (a date tag plus a
    sample counter); the monitor loop feeds consecutive counters.
  * File I/O always succeeds in the model (`FileStore` is an association
    list from file name to the data rows appended so far; the header row
    the code writes on file creation is implicit in the file's presence).
-/

set_option maxRecDepth 8000

namespace NetMon

/-! ## Kernel-reducible rational arithmetic -/

/-- Addition on `ℚ` via `mkRat` (reducible by the kernel); equals `+`. -/
def qAdd (a b : ℚ) : ℚ := mkRat (a.num * b.den + b.num * a.den) (a.den * b.den)

/-- Subtraction on `ℚ` via `mkRat`; equals `-`. -/
def qSub (a b : ℚ) : ℚ := mkRat (a.num * b.den - b.num * a.den) (a.den * b.den)

/-- Multiplication on `ℚ` via `mkRat`; equals `*`. -/
def qMul (a b : ℚ) : ℚ := mkRat (a.num * b.num) (a.den * b.den)

/-- Inverse on `ℚ` via `mkRat`; equals `⁻¹` (and sends `0` to `0`). -/
def qInv (b : ℚ) : ℚ := mkRat (b.num.sign * b.den) b.num.natAbs

/-- Division on `ℚ` via `mkRat`; equals `/` (and division by `0` is `0`,
exactly as for `ℚ`; the embedded code only divides by positive counts or
by a baseline average it has checked to be positive). -/
def qDiv (a b : ℚ) : ℚ := qMul a (qInv b)

/-- Sum of a list of rationals through `qAdd`; equals `List.sum`. -/
def qSum : List ℚ → ℚ
  | [] => 0
  | x :: xs => qAdd x (qSum xs)

/-- Append to a `collections.deque(maxlen = maxlen)`: push on the right,
drop from the left once the bound is exceeded. -/
def dequeAppend {α : Type} (maxlen : ℕ) (xs : List α) (x : α) : List α :=
  let ys := xs ++ [x]
  if maxlen < ys.length then ys.drop (ys.length - maxlen) else ys

/-- Python `statistics.mean`: sum divided by length.  (Python raises on an empty
list; all call sites in the embedded code are guarded by nonemptiness, and
on `[]` this total model returns the junk value `0`.) -/
def listMean (xs : List ℚ) : ℚ := qDiv (qSum xs) ((xs.length : ℚ))

/-- Builtin `max` over a nonempty list (junk value `0` on `[]`). -/
def listMax : List ℚ → ℚ
  | [] => 0
  | x :: xs => xs.foldl max x

/-- Builtin `min` over a nonempty list (junk value `0` on `[]`). -/
def listMin : List ℚ → ℚ
  | [] => 0
  | x :: xs => xs.foldl min x

/-- Python's `list(...)[- n :]`: the last `n` elements. -/
def takeLast {α : Type} (n : ℕ) (xs : List α) : List α := xs.drop (xs.length - n)

/-- Python `statistics.stdev` needs at least two data points; the embedding
returns the sample variance (square of the standard deviation, `n - 1`
denominator), or `none` on fewer than two points (where Python raises
`StatisticsError`). -/
def sampleVariance (xs : List ℚ) : Option ℚ :=
  if xs.length < 2 then none
  else
    let m := listMean xs
    some (qDiv (qSum (xs.map fun x => qMul (qSub x m) (qSub x m))) (((xs.length - 1 : ℕ) : ℚ)))

/-! ## Anomaly detector (`NetworkMonitor.detect_anomaly`) -/

/-- Wall-clock instant: the `%Y-%m-%d` date string plus a monotone sample
counter standing in for the time of day. -/
structure Timestamp where
  date : String
  time : ℕ
deriving DecidableEq

/-- Which detection criterion opened an episode (the code keeps the reason
string `"threshold fixo (...)"` or `"desvio estatístico (...)"`). -/
inductive DetectionMethod where
  | fixedThreshold : DetectionMethod
  | statDeviation : DetectionMethod
deriving DecidableEq

/-- The anomaly-detection configuration fields of a `NetworkMonitor`
(defaults from `__init__`, lines 95-100). -/
structure Config where
  anomaly_threshold : ℚ
  anomaly_deviation_multiplier : ℚ
  anomaly_min_samples : ℕ
  anomaly_min_consecutive_normal : ℕ
  anomaly_min_pings : ℕ
  anomaly_min_increase_percent : ℚ
deriving DecidableEq

/-- The source's defaults: threshold 100 ms, multiplier 2.5, 30 baseline
samples, 10 consecutive normals to close, 5 affected pings and 50 percent
increase to keep an episode. -/
def defaultConfig : Config :=
  { anomaly_threshold := 100
    anomaly_deviation_multiplier := qDiv 5 2
    anomaly_min_samples := 30
    anomaly_min_consecutive_normal := 10
    anomaly_min_pings := 5
    anomaly_min_increase_percent := 50 }

/-- The `anomaly_data` record built when an episode is closed and kept
(lines 591-605). -/
structure Episode where
  start_time : Timestamp
  end_time : Timestamp
  duration_seconds : ℕ
  avg_latency : ℚ
  max_latency : ℚ
  min_latency : ℚ
  pings_affected : ℕ
  start_ping_number : ℕ
  detection_method : DetectionMethod
  baseline_avg : ℚ
  baseline_min : ℚ
  baseline_max : ℚ
  increase_percent : ℚ
deriving DecidableEq

/-- Instrumentation record for one confirmed close of an episode:
the episode data, whether the retention filter kept (persisted) it, and
whether its percent increase was actually computed (at least 10 baseline
samples with positive average) rather than left at the placeholder `0`. -/
structure ClosedEpisode where
  ep : Episode
  persisted : Bool
  increase_defined : Bool
deriving DecidableEq

/-- The mutable detector state inside `NetworkMonitor` (lines 101-112). -/
structure DetectorState where
  baseline_latencies : List ℚ
  cached_baseline_mean : Option ℚ
  cached_baseline_var : Option ℚ
  baseline_cache_count : ℕ
  in_anomaly : Bool
  anomaly_start_time : Timestamp
  anomaly_start_index : ℕ
  anomaly_window : List ℚ
  anomaly_normal_buffer : List ℚ
  anomaly_reason : DetectionMethod
  detected_anomalies : List Episode
  stat_error : Bool
deriving DecidableEq

/-- Detector state as `__init__` leaves it. -/
def initDetector : DetectorState :=
  { baseline_latencies := []
    cached_baseline_mean := none
    cached_baseline_var := none
    baseline_cache_count := 0
    in_anomaly := false
    anomaly_start_time := ⟨"", 0⟩
    anomaly_start_index := 0
    anomaly_window := []
    anomaly_normal_buffer := []
    anomaly_reason := DetectionMethod.fixedThreshold
    detected_anomalies := []
    stat_error := false }

/-- Lines 488-491: the sample is appended to the baseline window (bounded
by `maxlen = 100`) exactly when the detector is not currently inside an
anomaly; the cache-staleness counter is bumped with it. -/
def appendBaseline (st : DetectorState) (latency : ℚ) : DetectorState :=
  if st.in_anomaly then st
  else
    { st with
      baseline_latencies := dequeAppend 100 st.baseline_latencies latency
      baseline_cache_count := st.baseline_cache_count + 1 }

/-- The statistical criterion `latency > mean + stdev * multiplier`
(line 514-516), encoded exactly by squaring: for a nonnegative multiplier
and nonnegative variance, `latency > mean + mult * sqrt var` iff
`latency - mean > 0` and `(latency - mean)^2 > mult^2 * var`. -/
def statFires (cfg : Config) (latency mean variance : ℚ) : Prop :=
  0 < qSub latency mean ∧
    qMul variance (qMul cfg.anomaly_deviation_multiplier cfg.anomaly_deviation_multiplier) <
      qMul (qSub latency mean) (qSub latency mean)

instance (cfg : Config) (latency mean variance : ℚ) :
    Decidable (statFires cfg latency mean variance) :=
  inferInstanceAs (Decidable (_ ∧ _))

/-- Outcome of the per-sample anomaly decision (lines 493-518): whether the
sample is anomalous, plus the cache fields as the branch leaves them,
whether the statistical branch was evaluated at all, and (if the cached
mean/stdev were recomputed) the baseline length at that recomputation. -/
structure EvalOut where
  is_anomaly : Bool
  statChecked : Bool
  statComputedLen : Option ℕ
deriving DecidableEq

/-- Lines 493-518 of `detect_anomaly`: criterion 1 is the fixed threshold
(`latency >= anomaly_threshold`), criterion 2 (only reached otherwise, and
only with at least `anomaly_min_samples` baseline points) recomputes the
cached baseline mean/stdev when stale (10 insertions) or absent and
compares against the dynamic threshold.  Returns the decision and the
state with the cache fields updated.  `stat_error` records a
`statistics.stdev` call on fewer than two values (a Python exception). -/
def evalAnomaly (cfg : Config) (latency : ℚ) (st : DetectorState) : EvalOut × DetectorState :=
  if cfg.anomaly_threshold ≤ latency then
    (⟨true, false, none⟩, st)
  else if cfg.anomaly_min_samples ≤ st.baseline_latencies.length then
    if 10 ≤ st.baseline_cache_count ∨ st.cached_baseline_mean = none then
      let m := listMean st.baseline_latencies
      let vOpt := sampleVariance st.baseline_latencies
      let st' :=
        { st with
          cached_baseline_mean := some m
          cached_baseline_var := some (vOpt.getD 0)
          baseline_cache_count := 0
          stat_error := st.stat_error || vOpt.isNone }
      (⟨decide (statFires cfg latency m (vOpt.getD 0)), true,
        some st.baseline_latencies.length⟩, st')
    else
      (⟨decide (statFires cfg latency (st.cached_baseline_mean.getD 0)
          (st.cached_baseline_var.getD 0)), true, none⟩, st)
  else
    (⟨false, false, none⟩, st)

/-- Result of one `detect_anomaly` call: the new state, whether an episode
was opened on this sample, the episode closed on this sample (if any) with
its retention verdict, and the statistical-branch instrumentation. -/
structure StepOut where
  state : DetectorState
  opened : Bool
  closed : Option ClosedEpisode
  statChecked : Bool
  statComputedLen : Option ℕ
deriving DecidableEq

/-- Line 575: the percent increase of the episode average over the
baseline average. -/
def increasePercent (avgA bAvg : ℚ) : ℚ := qMul (qDiv (qSub avgA bAvg) bAvg) 100

/-- Lines 577-590: the three retention filters, in the source's `elif`
order: discard on too few affected pings; discard on a positive computed
increase below the minimum; discard on an average below the fixed
threshold with an increase below the minimum; otherwise keep. -/
def retentionKeep (cfg : Config) (pings : ℕ) (avgA inc : ℚ) : Bool :=
  if pings < cfg.anomaly_min_pings then false
  else if 0 < inc ∧ inc < cfg.anomaly_min_increase_percent then false
  else if avgA < cfg.anomaly_threshold ∧ inc < cfg.anomaly_min_increase_percent then false
  else true

/-- Lines 546-616: confirmed close of an episode once the normal buffer
reached `anomaly_min_consecutive_normal`.  Computes the episode metrics,
the pre-episode baseline statistics (only with at least 10 baseline
samples), the percent increase (only for a positive baseline average),
then applies the three retention filters in the source's `elif` order and
appends the episode to `detected_anomalies` iff all pass. -/
def closeEpisode (cfg : Config) (timestamp : Timestamp) (ev : EvalOut)
    (st : DetectorState) : StepOut :=
  let window := st.anomaly_window
  let pings := window.length
  let avgA := listMean window
  let bl := takeLast 50 st.baseline_latencies
  let hasB : Bool := decide (10 ≤ st.baseline_latencies.length)
  let bAvgRaw := listMean bl
  let incDef : Bool := hasB && decide (0 < bAvgRaw)
  let inc := if incDef then increasePercent avgA bAvgRaw else 0
  let ep : Episode :=
    { start_time := st.anomaly_start_time
      end_time := timestamp
      duration_seconds := timestamp.time - st.anomaly_start_time.time
      avg_latency := avgA
      max_latency := listMax window
      min_latency := listMin window
      pings_affected := pings
      start_ping_number := st.anomaly_start_index
      detection_method := st.anomaly_reason
      baseline_avg := if hasB then bAvgRaw else 0
      baseline_min := if hasB then listMin bl else 0
      baseline_max := if hasB then listMax bl else 0
      increase_percent := inc }
  let keep : Bool := retentionKeep cfg pings avgA inc
  { state :=
      { st with
        in_anomaly := false
        anomaly_window := []
        anomaly_normal_buffer := []
        detected_anomalies := st.detected_anomalies ++ if keep then [ep] else [] }
    opened := false
    closed := some ⟨ep, keep, incDef⟩
    statChecked := ev.statChecked
    statComputedLen := ev.statComputedLen }

/-- One call of `NetworkMonitor.detect_anomaly` (lines 476-616), fed a
successful latency, the tick's timestamp and the current value of
`stats['total_pings']`. -/
def detect_anomaly (cfg : Config) (latency : ℚ) (timestamp : Timestamp)
    (total_pings : ℕ) (st0 : DetectorState) : StepOut :=
  let st1 := appendBaseline st0 latency
  let es := evalAnomaly cfg latency st1
  let ev := es.1
  let st := es.2
  if ev.is_anomaly then
    if st0.in_anomaly then
      { state :=
          { st with
            anomaly_window := st.anomaly_window ++ latency :: st.anomaly_normal_buffer
            anomaly_normal_buffer := [] }
        opened := false
        closed := none
        statChecked := ev.statChecked
        statComputedLen := ev.statComputedLen }
    else
      { state :=
          { st with
            in_anomaly := true
            anomaly_start_time := timestamp
            anomaly_start_index := total_pings
            anomaly_window := [latency]
            anomaly_normal_buffer := []
            anomaly_reason :=
              if cfg.anomaly_threshold ≤ latency then DetectionMethod.fixedThreshold
              else DetectionMethod.statDeviation }
        opened := true
        closed := none
        statChecked := ev.statChecked
        statComputedLen := ev.statComputedLen }
  else
    if st0.in_anomaly then
      let buffer := st.anomaly_normal_buffer ++ [latency]
      if cfg.anomaly_min_consecutive_normal ≤ buffer.length then
        closeEpisode cfg timestamp ev st
      else
        { state := { st with anomaly_normal_buffer := buffer }
          opened := false
          closed := none
          statChecked := ev.statChecked
          statComputedLen := ev.statComputedLen }
    else
      { state := st
        opened := false
        closed := none
        statChecked := ev.statChecked
        statComputedLen := ev.statComputedLen }

/-- Cumulated outcome of feeding a latency stream to the detector. -/
structure RunOut where
  final : DetectorState
  log : List ClosedEpisode
  openCount : ℕ
  statLens : List ℕ
deriving DecidableEq

/-- Feed a stream of successful latencies to the detector, sample `i`
carrying timestamp `i` and ping number `i + 1` (the monitor loop
increments `total_pings` before calling the detector). -/
def runFrom (cfg : Config) : RunOut → ℕ → List ℚ → RunOut
  | acc, _, [] => acc
  | acc, i, x :: xs =>
    let o := detect_anomaly cfg x ⟨"", i⟩ (i + 1) acc.final
    runFrom cfg
      { final := o.state
        log := acc.log ++ o.closed.toList
        openCount := acc.openCount + if o.opened then 1 else 0
        statLens := acc.statLens ++ o.statComputedLen.toList }
      (i + 1) xs

/-- Run the detector on a stream from the freshly initialised state. -/
def runDetect (cfg : Config) (stream : List ℚ) : RunOut :=
  runFrom cfg ⟨initDetector, [], 0, []⟩ 0 stream

/-! ## Session statistics, probe log and the monitor loop body -/

/-- The `self.stats` dictionary (lines 62-72); `min_latency` is an
`Option` whose `none` stands for the initial `float('inf')`, and
`start_time` likewise for `None`. -/
structure SessionStats where
  total_pings : ℕ
  successful_pings : ℕ
  failed_pings : ℕ
  min_latency : Option ℚ
  max_latency : ℚ
  avg_latency : ℚ
  packet_loss : ℚ
  alerts_triggered : ℕ
  start_time : Option Timestamp
deriving DecidableEq

/-- The stats dictionary as `__init__` (and `reset_stats`) writes it. -/
def initStats : SessionStats :=
  { total_pings := 0
    successful_pings := 0
    failed_pings := 0
    min_latency := none
    max_latency := 0
    avg_latency := 0
    packet_loss := 0
    alerts_triggered := 0
    start_time := none }

/-- One buffered probe-log record (the dict built in `log_to_file`,
lines 408-414): the `'%.2f'`/`'N/A'` rendering of the latency is kept as
the underlying `Option ℚ`. -/
structure LogEntry where
  timestamp : Timestamp
  server : String
  latency : Option ℚ
  status : Bool
  packet_loss : ℚ
deriving DecidableEq

/-- The on-disk log directory: file name to the data rows appended so far
(the header row the code writes when creating a file is implicit). -/
def FileStore : Type := List (String × List LogEntry)

/-- Rows currently in the named file (empty if the file does not exist). -/
def fileRows : FileStore → String → List LogEntry
  | [], _ => []
  | (k, v) :: rest, n => if k = n then v else fileRows rest n

/-- Append rows to the named file, creating it if needed. -/
def storeAppend : FileStore → String → List LogEntry → FileStore
  | [], n, rows => [(n, rows)]
  | (k, v) :: rest, n, rows =>
    if k = n then (k, v ++ rows) :: rest else (k, v) :: storeAppend rest n rows

/-- The dated destination of `flush_log_buffer` (line 432-433), computed
from the first buffered record's timestamp. -/
def logFileName (e : LogEntry) : String :=
  "logs/network_log_" ++ e.timestamp.date ++ (".csv")

/-- Method `flush_log_buffer` (lines 426-453): an empty buffer is a no-op, else
every buffered record is appended to the dated log file and the buffer is
cleared.  (Persistence always succeeds in the model; on an I/O error the
code would keep the buffer for the next flush.) -/
def flush_log_buffer : List LogEntry → FileStore → List LogEntry × FileStore
  | [], store => ([], store)
  | e :: rest, store => ([], storeAppend store (logFileName e) (e :: rest))

/-- The full mutable state of one `NetworkMonitor` instance, with the
fields of `__init__` that the engine uses.  `consecutive_failures` is the
loop-local counter of `monitor_loop`, carried here across ticks.  The
four `*_ref` fields are allocation indices standing for the identity of
the Python list/deque objects created fresh by `__init__`: two monitors
share a mutable collection exactly when they share its index. -/
structure NetworkMonitor where
  monitor_id : String
  wifi_ssid : Option String
  monitoring : Bool
  ping_history : List ℚ
  timestamps : List Timestamp
  ping_count_offset : ℕ
  current_server : String
  interval : ℚ
  alert_threshold : ℚ
  packet_loss_threshold : ℚ
  stats : SessionStats
  anomaly_file : String
  current_wifi_ssid : Option String
  last_known_wifi : Option String
  enable_alerts : Bool
  enable_sound_alerts : Bool
  enable_auto_export : Bool
  enable_wifi_reconnect : Bool
  anomaly_threshold : ℚ
  anomaly_deviation_multiplier : ℚ
  anomaly_min_samples : ℕ
  anomaly_min_consecutive_normal : ℕ
  anomaly_min_pings : ℕ
  anomaly_min_increase_percent : ℚ
  detector : DetectorState
  log_buffer : List LogEntry
  log_buffer_max : ℕ
  consecutive_failures : ℕ
  ping_history_ref : ℕ
  baseline_ref : ℕ
  anomaly_window_ref : ℕ
  detected_ref : ℕ
deriving DecidableEq

/-- Python's `str.strip` plus the list comprehension of lines 80-81 /
783-784: keep alphanumerics, spaces, underscores and hyphens, trim, then
replace spaces with underscores. -/
def sanitizeSsid (s : String) : String :=
  ((((s.toList.filter fun c => c.isAlphanum || c = ' ' || c = '_' || c = '-')).asString).trim).replace
    (" ") ("_")

/-- Constructor `NetworkMonitor.__init__` (lines 34-119) with no pre-existing
configuration or anomaly file on disk (`load_config` and `load_anomalies`
then change nothing), taking the current date for the anomaly-file name
and an allocation base for the identities of the four freshly created
mutable collections. -/
def NetworkMonitor.create (monitor_id : String) (wifi_ssid : Option String)
    (date : String) (alloc : ℕ) : NetworkMonitor :=
  { monitor_id := monitor_id
    wifi_ssid := wifi_ssid
    monitoring := false
    ping_history := []
    timestamps := []
    ping_count_offset := 0
    current_server := "8.8.8.8"
    interval := 1
    alert_threshold := 100
    packet_loss_threshold := 5
    stats := initStats
    anomaly_file :=
      match wifi_ssid with
      | some ssid => "logs/anomalias_" ++ sanitizeSsid ssid ++ ("_") ++ date ++ (".csv")
      | none => "logs/anomalias_detectadas.csv"
    current_wifi_ssid := wifi_ssid
    last_known_wifi := none
    enable_alerts := true
    enable_sound_alerts := true
    enable_auto_export := true
    enable_wifi_reconnect := true
    anomaly_threshold := 100
    anomaly_deviation_multiplier := qDiv 5 2
    anomaly_min_samples := 30
    anomaly_min_consecutive_normal := 10
    anomaly_min_pings := 5
    anomaly_min_increase_percent := 50
    detector := initDetector
    log_buffer := []
    log_buffer_max := 10
    consecutive_failures := 0
    ping_history_ref := alloc
    baseline_ref := alloc + 1
    anomaly_window_ref := alloc + 2
    detected_ref := alloc + 3 }

/-- The detector configuration carried by a monitor instance. -/
def NetworkMonitor.detectorConfig (m : NetworkMonitor) : Config :=
  { anomaly_threshold := m.anomaly_threshold
    anomaly_deviation_multiplier := m.anomaly_deviation_multiplier
    anomaly_min_samples := m.anomaly_min_samples
    anomaly_min_consecutive_normal := m.anomaly_min_consecutive_normal
    anomaly_min_pings := m.anomaly_min_pings
    anomaly_min_increase_percent := m.anomaly_min_increase_percent }

/-- One iteration of the body of `monitor_loop` (lines 314-387), given the
probe result (`some latency` for a successful ping, `none` for a failure)
and the tick's timestamp: update the counters and min/max/mean, feed the
detector on success, count alerts, recompute the packet loss, and run
`log_to_file` (append to the buffer, flushing at `log_buffer_max`).
Sounds, the GUI callback and the Wi-Fi reconnection check mutate nothing
in this state and are omitted. -/
def monitorTick (m : NetworkMonitor) (store : FileStore) (latency : Option ℚ)
    (ts : Timestamp) : NetworkMonitor × FileStore :=
  let stats0 := { m.stats with total_pings := m.stats.total_pings + 1 }
  match latency with
  | some lat =>
    let stats1 := { stats0 with successful_pings := stats0.successful_pings + 1 }
    let ph := dequeAppend 200 m.ping_history lat
    let tss := dequeAppend 200 m.timestamps ts
    let stats2 :=
      { stats1 with
        min_latency :=
          match stats1.min_latency with
          | none => some lat
          | some mn => if lat < mn then some lat else some mn
        max_latency := if stats1.max_latency < lat then lat else stats1.max_latency }
    let stats3 :=
      { stats2 with avg_latency := if 0 < ph.length then listMean ph else stats2.avg_latency }
    let dOut := detect_anomaly m.detectorConfig lat ts stats3.total_pings m.detector
    let stats4 :=
      if m.enable_alerts = true ∧ m.alert_threshold < lat then
        { stats3 with alerts_triggered := stats3.alerts_triggered + 1 }
      else stats3
    let stats5 :=
      { stats4 with
        packet_loss :=
          if 0 < stats4.total_pings then
            qMul (qDiv ((stats4.failed_pings : ℚ)) ((stats4.total_pings : ℚ))) 100
          else stats4.packet_loss }
    let entry : LogEntry :=
      { timestamp := ts
        server := m.current_server
        latency := some lat
        status := true
        packet_loss := stats5.packet_loss }
    let buf := m.log_buffer ++ [entry]
    let flushed := if m.log_buffer_max ≤ buf.length then flush_log_buffer buf store else (buf, store)
    ({ m with
        stats := stats5
        ping_history := ph
        timestamps := tss
        detector := dOut.state
        consecutive_failures := 0
        log_buffer := flushed.1 }, flushed.2)
  | none =>
    let stats1 := { stats0 with failed_pings := stats0.failed_pings + 1 }
    let cf := m.consecutive_failures + 1
    let stats2 :=
      if 3 ≤ cf then { stats1 with alerts_triggered := stats1.alerts_triggered + 1 }
      else stats1
    let stats3 :=
      { stats2 with
        packet_loss :=
          if 0 < stats2.total_pings then
            qMul (qDiv ((stats2.failed_pings : ℚ)) ((stats2.total_pings : ℚ))) 100
          else stats2.packet_loss }
    let entry : LogEntry :=
      { timestamp := ts
        server := m.current_server
        latency := none
        status := false
        packet_loss := stats3.packet_loss }
    let buf := m.log_buffer ++ [entry]
    let flushed := if m.log_buffer_max ≤ buf.length then flush_log_buffer buf store else (buf, store)
    ({ m with
        stats := stats3
        consecutive_failures := cf
        log_buffer := flushed.1 }, flushed.2)

/-- Feed a list of probe results to the loop body, tick `i` carrying
timestamp `i`. -/
def runLoop : NetworkMonitor × FileStore → ℕ → List (Option ℚ) → NetworkMonitor × FileStore
  | ms, _, [] => ms
  | (m, store), i, x :: xs => runLoop (monitorTick m store x ⟨"", i⟩) (i + 1) xs

/-- Method `stop_monitoring` (lines 471-474): clear the running flag and flush
any buffered log records. -/
def stop_monitoring (m : NetworkMonitor) (store : FileStore) :
    NetworkMonitor × FileStore :=
  let flushed := flush_log_buffer m.log_buffer store
  ({ m with monitoring := false, log_buffer := flushed.1 }, flushed.2)

/-- Method `reset_stats` (lines 681-697): reset the session statistics, clear the
retained latency history and timestamps and the plot offset; detected
anomalies are deliberately untouched. -/
def reset_stats (m : NetworkMonitor) : NetworkMonitor :=
  { m with
    stats := initStats
    ping_history := []
    timestamps := []
    ping_count_offset := 0 }

/-! ## Concurrency manager (`DualWiFiMonitorManager`) -/

/-- Lookup in the manager's `self.monitors` dictionary. -/
def dictFind : List (String × NetworkMonitor) → String → Option NetworkMonitor
  | [], _ => none
  | (k, v) :: rest, n => if k = n then some v else dictFind rest n

/-- Insertion into the manager's dictionary (`self.monitors[key] = m`). -/
def dictInsert : List (String × NetworkMonitor) → String → NetworkMonitor →
    List (String × NetworkMonitor)
  | [], n, m => [(n, m)]
  | (k, v) :: rest, n, m =>
    if k = n then (n, m) :: rest else (k, v) :: dictInsert rest n m

/-- Manager `DualWiFiMonitorManager` state (lines 764-767): the key-to-instance
mapping plus the allocation counter for fresh collection identities
(threads are outside the model; `add_monitor` runs under `self.lock`). -/
structure DualWiFiMonitorManager where
  monitors : List (String × NetworkMonitor)
  nextAlloc : ℕ
deriving DecidableEq

/-- Method `DualWiFiMonitorManager.add_monitor` (lines 769-818): if the key is
absent or `force_new` is set, build a fresh `NetworkMonitor`, overwrite
its server, interval and anomaly-file fields, disable Wi-Fi reconnection,
copy the six anomaly-configuration values from `main_monitor` (silencing
its sound alerts), store it under the key (suffixed when `force_new`) and
return it; otherwise return the already-stored monitor unchanged.
`buildDualMonitor` is the construction part (lines 774-802). -/
def buildDualMonitor (nMonitors : ℕ) (alloc : ℕ) (wifi_ssid server : String)
    (interval : ℚ) (main_monitor : Option NetworkMonitor) (date : String) :
    NetworkMonitor :=
  let monitor0 := NetworkMonitor.create
    ("wifi_" ++ wifi_ssid ++ ("_") ++ toString nMonitors)
    (some wifi_ssid) date alloc
  let monitor1 :=
    { monitor0 with
      current_server := server
      interval := interval
      anomaly_file := "logs/anomalias_" ++ sanitizeSsid wifi_ssid ++ ("_") ++ date ++ (".csv")
      current_wifi_ssid := some wifi_ssid
      enable_wifi_reconnect := false
      last_known_wifi := none }
  match main_monitor with
  | some t =>
    { monitor1 with
      anomaly_threshold := t.anomaly_threshold
      anomaly_min_increase_percent := t.anomaly_min_increase_percent
      anomaly_min_pings := t.anomaly_min_pings
      anomaly_deviation_multiplier := t.anomaly_deviation_multiplier
      anomaly_min_samples := t.anomaly_min_samples
      anomaly_min_consecutive_normal := t.anomaly_min_consecutive_normal
      enable_sound_alerts := false
      enable_alerts := true }
  | none => monitor1

/-- The body of `add_monitor` under the lock. -/
def add_monitor (mgr : DualWiFiMonitorManager) (wifi_ssid : String)
    (server : String) (interval : ℚ) (main_monitor : Option NetworkMonitor)
    (force_new : Bool) (date : String) :
    DualWiFiMonitorManager × NetworkMonitor :=
  if dictFind mgr.monitors wifi_ssid = none ∨ force_new = true then
    let monitor2 := buildDualMonitor mgr.monitors.length mgr.nextAlloc
      wifi_ssid server interval main_monitor date
    let key :=
      if force_new = true then wifi_ssid ++ ("_monitor_") ++ toString mgr.monitors.length
      else wifi_ssid
    ({ monitors := dictInsert mgr.monitors key monitor2
       nextAlloc := mgr.nextAlloc + 4 }, monitor2)
  else
    (mgr, (dictFind mgr.monitors wifi_ssid).getD (NetworkMonitor.create ("") none ("") 0))

/-! ## Concrete fixtures used by counterexamples and witnesses -/

/-- Stream refuting C1 with the default configuration: ten normal samples
around 99 ms with one enormous episode-opening spike (which, per the code,
enters the baseline), a discarded one-sample episode, then a five-sample
episode at 150 ms whose computed percent increase over the spiked baseline
is negative, followed by ten closing normals. -/
def c1Stream : List ℚ :=
  List.replicate 9 99 ++ [10000] ++ List.replicate 10 99 ++
    List.replicate 5 150 ++ List.replicate 10 99

/-- Stream refuting C3 with the default configuration: one sample at the
fixed threshold followed by 39 samples below it.  The trailing normals
grow the baseline to `anomaly_min_samples`, and the final sample (90 ms,
still below the fixed threshold) trips the statistical criterion, opening
a second episode. -/
def c3Stream : List ℚ := [100] ++ List.replicate 38 1 ++ [90]

/-- Junk default used only as the `List.headD` fallback on logs that are
provably nonempty. -/
def junkClosed : ClosedEpisode :=
  { ep :=
      { start_time := ⟨"", 0⟩
        end_time := ⟨"", 0⟩
        duration_seconds := 0
        avg_latency := 0
        max_latency := 0
        min_latency := 0
        pings_affected := 0
        start_ping_number := 0
        detection_method := DetectionMethod.fixedThreshold
        baseline_avg := 0
        baseline_min := 0
        baseline_max := 0
        increase_percent := 0 }
    persisted := false
    increase_defined := false }

/-- The retention condition exactly as claim C1 words it (spec side, for
the refutation): kept iff enough affected pings, AND the percent increase
reaches the configured minimum OR was never computed, AND NOT (average
below the fixed threshold with increase below the minimum). -/
def c1RetentionSpec (cfg : Config) (c : ClosedEpisode) : Prop :=
  cfg.anomaly_min_pings ≤ c.ep.pings_affected ∧
    (cfg.anomaly_min_increase_percent ≤ c.ep.increase_percent ∨ c.increase_defined = false) ∧
    ¬(c.ep.avg_latency < cfg.anomaly_threshold ∧
      c.ep.increase_percent < cfg.anomaly_min_increase_percent)

instance (cfg : Config) (c : ClosedEpisode) : Decidable (c1RetentionSpec cfg c) := by
  unfold c1RetentionSpec
  infer_instance

/-- The identities (allocation indices) of the four mutable collections a
monitor owns: its plot history, its baseline window, its episode window
and its detected-episode list. -/
def refsOf (m : NetworkMonitor) : List ℕ :=
  [m.ping_history_ref, m.baseline_ref, m.anomaly_window_ref, m.detected_ref]

/-- The six anomaly-configuration values `add_monitor` copies from the
template monitor. -/
def configCopied (m t : NetworkMonitor) : Prop :=
  m.anomaly_threshold = t.anomaly_threshold ∧
    m.anomaly_deviation_multiplier = t.anomaly_deviation_multiplier ∧
    m.anomaly_min_samples = t.anomaly_min_samples ∧
    m.anomaly_min_consecutive_normal = t.anomaly_min_consecutive_normal ∧
    m.anomaly_min_pings = t.anomaly_min_pings ∧
    m.anomaly_min_increase_percent = t.anomaly_min_increase_percent

/-- A clean five-ping outage: five samples at the default fixed threshold
followed by ten closing normals; used by several witnesses. -/
def wStream : List ℚ := [100, 100, 100, 100, 100] ++ List.replicate 10 1

/-- The retention filters as the code applies them (the corrected claim):
a closed episode is persisted iff it has at least `anomaly_min_pings`
affected pings, its recorded increase is not strictly between `0` and
`anomaly_min_increase_percent`, and not (average below the fixed threshold
with increase below the minimum). -/
def persistedIffFilters (cfg : Config) (c : ClosedEpisode) : Prop :=
  c.persisted = true ↔
    (cfg.anomaly_min_pings ≤ c.ep.pings_affected ∧
     ¬(0 < c.ep.increase_percent ∧
       c.ep.increase_percent < cfg.anomaly_min_increase_percent) ∧
     ¬(c.ep.avg_latency < cfg.anomaly_threshold ∧
       c.ep.increase_percent < cfg.anomaly_min_increase_percent))

/-- Detector state right after a fixed-threshold sample `x0` opens an
episode as the first sample fed to a fresh detector. -/
def openedState (x0 : ℚ) : DetectorState :=
  { baseline_latencies := [x0]
    cached_baseline_mean := none
    cached_baseline_var := none
    baseline_cache_count := 1
    in_anomaly := true
    anomaly_start_time := ⟨"", 0⟩
    anomaly_start_index := 1
    anomaly_window := [x0]
    anomaly_normal_buffer := []
    anomaly_reason := DetectionMethod.fixedThreshold
    detected_anomalies := []
    stat_error := false }

/-- The engine's own monitor as the GUI constructs it at startup. -/
def initialMonitor : NetworkMonitor := NetworkMonitor.create ("default") none ("2025-01-01") 0

/-- Template monitor used by the C7 witness. -/
def w7t : NetworkMonitor := NetworkMonitor.create ("tmpl") none ("2025-01-01") 0

/-- A buffered probe record used by the C8 witness. -/
def w8Entry : LogEntry :=
  { timestamp := ⟨"2025-01-01", 3⟩
    server := "8.8.8.8"
    latency := some 20
    status := true
    packet_loss := 0 }

/-- A monitor with one buffered, unflushed record, for the C8 witness. -/
def w8Monitor : NetworkMonitor := { initialMonitor with log_buffer := [w8Entry] }

/-! ## Theorems: library bridges -/

theorem qAdd_eq (a b : ℚ) : qAdd a b = a + b := by
  rw [qAdd, Rat.mkRat_eq_div]
  push_cast
  conv_rhs => rw [← Rat.num_div_den a, ← Rat.num_div_den b]
  have ha : ((a.den : ℚ)) ≠ 0 := by exact_mod_cast a.den_nz
  have hb : ((b.den : ℚ)) ≠ 0 := by exact_mod_cast b.den_nz
  field_simp

theorem qSub_eq (a b : ℚ) : qSub a b = a - b := by
  rw [qSub, Rat.mkRat_eq_div]
  push_cast
  conv_rhs => rw [← Rat.num_div_den a, ← Rat.num_div_den b]
  have ha : ((a.den : ℚ)) ≠ 0 := by exact_mod_cast a.den_nz
  have hb : ((b.den : ℚ)) ≠ 0 := by exact_mod_cast b.den_nz
  field_simp
  ring

theorem qMul_eq (a b : ℚ) : qMul a b = a * b := by
  rw [qMul, Rat.mkRat_eq_div]
  push_cast
  conv_rhs => rw [← Rat.num_div_den a, ← Rat.num_div_den b]
  have ha : ((a.den : ℚ)) ≠ 0 := by exact_mod_cast a.den_nz
  have hb : ((b.den : ℚ)) ≠ 0 := by exact_mod_cast b.den_nz
  field_simp

theorem qInv_eq (b : ℚ) : qInv b = b⁻¹ := by
  rw [qInv, Rat.mkRat_eq_divInt, Rat.inv_def']
  rcases lt_trichotomy b.num 0 with hn | hn | hn
  · have h1 : b.num = -(b.num.natAbs : ℤ) := by omega
    conv_rhs => rw [h1]
    rw [Int.sign_eq_neg_one_of_neg hn, Rat.divInt_neg, neg_one_mul]
  · rw [hn]
    simp
  · have h1 : b.num = (b.num.natAbs : ℤ) := by omega
    conv_rhs => rw [h1]
    rw [Int.sign_eq_one_of_pos hn, one_mul]

theorem qDiv_eq (a b : ℚ) : qDiv a b = a / b := by
  rw [qDiv, qMul_eq, qInv_eq, div_eq_mul_inv]

/-! ## List helpers shared by the embedded components -/

theorem qSum_eq (xs : List ℚ) : qSum xs = xs.sum := by
  induction xs with
  | nil => rfl
  | cons x xs ih => rw [qSum, qAdd_eq, ih, List.sum_cons]

theorem dequeAppend_length {α : Type} (maxlen : ℕ) (xs : List α) (x : α) :
    (dequeAppend maxlen xs x).length = min (xs.length + 1) maxlen := by
  rw [dequeAppend]
  simp only [List.length_append, List.length_cons, List.length_nil]
  split
  · simp only [List.length_drop, List.length_append, List.length_cons, List.length_nil]
    omega
  · simp only [List.length_append, List.length_cons, List.length_nil]
    omega

theorem listMean_eq (xs : List ℚ) : listMean xs = xs.sum / (xs.length : ℚ) := by
  rw [listMean, qDiv_eq, qSum_eq]

theorem fileRows_storeAppend_self (s : FileStore) (n : String) (rows : List LogEntry) :
    fileRows (storeAppend s n rows) n = fileRows s n ++ rows := by
  induction s with
  | nil => simp [storeAppend, fileRows]
  | cons kv rest ih =>
    rw [storeAppend.eq_def, fileRows.eq_def]
    by_cases h : kv.1 = n
    · simp [h, fileRows]
    · simp [h, ih, fileRows]

/-! ## Theorems: detector step shape lemmas -/

theorem evalAnomaly_snd_fields (cfg : Config) (lat : ℚ) (st : DetectorState) :
    (evalAnomaly cfg lat st).2.baseline_latencies = st.baseline_latencies ∧
    (evalAnomaly cfg lat st).2.in_anomaly = st.in_anomaly ∧
    (evalAnomaly cfg lat st).2.anomaly_window = st.anomaly_window ∧
    (evalAnomaly cfg lat st).2.anomaly_normal_buffer = st.anomaly_normal_buffer ∧
    (evalAnomaly cfg lat st).2.detected_anomalies = st.detected_anomalies ∧
    (evalAnomaly cfg lat st).2.anomaly_start_time = st.anomaly_start_time ∧
    (evalAnomaly cfg lat st).2.anomaly_start_index = st.anomaly_start_index ∧
    (evalAnomaly cfg lat st).2.anomaly_reason = st.anomaly_reason := by
  unfold evalAnomaly
  split
  · exact ⟨rfl, rfl, rfl, rfl, rfl, rfl, rfl, rfl⟩
  · split
    · split
      · exact ⟨rfl, rfl, rfl, rfl, rfl, rfl, rfl, rfl⟩
      · exact ⟨rfl, rfl, rfl, rfl, rfl, rfl, rfl, rfl⟩
    · exact ⟨rfl, rfl, rfl, rfl, rfl, rfl, rfl, rfl⟩

theorem appendBaseline_fields (st : DetectorState) (lat : ℚ) :
    (appendBaseline st lat).baseline_latencies =
      (if st.in_anomaly = true then st.baseline_latencies
       else dequeAppend 100 st.baseline_latencies lat) ∧
    (appendBaseline st lat).in_anomaly = st.in_anomaly ∧
    (appendBaseline st lat).anomaly_window = st.anomaly_window ∧
    (appendBaseline st lat).anomaly_normal_buffer = st.anomaly_normal_buffer ∧
    (appendBaseline st lat).detected_anomalies = st.detected_anomalies ∧
    (appendBaseline st lat).anomaly_start_time = st.anomaly_start_time ∧
    (appendBaseline st lat).anomaly_start_index = st.anomaly_start_index ∧
    (appendBaseline st lat).anomaly_reason = st.anomaly_reason := by
  unfold appendBaseline
  by_cases h : st.in_anomaly = true
  · simp [h]
  · simp only [Bool.not_eq_true] at h
    simp [h]

theorem retentionKeep_iff (cfg : Config) (pings : ℕ) (avgA inc : ℚ) :
    retentionKeep cfg pings avgA inc = true ↔
      (cfg.anomaly_min_pings ≤ pings ∧
       ¬(0 < inc ∧ inc < cfg.anomaly_min_increase_percent) ∧
       ¬(avgA < cfg.anomaly_threshold ∧ inc < cfg.anomaly_min_increase_percent)) := by
  unfold retentionKeep
  split
  · next h1 =>
    simp only [Bool.false_eq_true, false_iff]
    intro hcon
    omega
  · next h1 =>
    split
    · next h2 =>
      simp only [Bool.false_eq_true, false_iff]
      intro hcon
      exact hcon.2.1 h2
    · next h2 =>
      split
      · next h3 =>
        simp only [Bool.false_eq_true, false_iff]
        intro hcon
        exact hcon.2.2 h3
      · next h3 =>
        simp only [true_iff]
        exact ⟨by omega, h2, h3⟩

theorem closeEpisode_state_fields (cfg : Config) (t : Timestamp) (ev : EvalOut)
    (st : DetectorState) :
    (closeEpisode cfg t ev st).state.baseline_latencies = st.baseline_latencies ∧
    (closeEpisode cfg t ev st).state.in_anomaly = false ∧
    (closeEpisode cfg t ev st).state.anomaly_window = [] ∧
    (closeEpisode cfg t ev st).state.anomaly_normal_buffer = [] := by
  exact ⟨rfl, rfl, rfl, rfl⟩

theorem closeEpisode_spec (cfg : Config) (t : Timestamp) (ev : EvalOut)
    (st : DetectorState) (c : ClosedEpisode)
    (hc : (closeEpisode cfg t ev st).closed = some c) :
    c.ep.pings_affected = st.anomaly_window.length ∧
    (c.persisted = true ↔
      (cfg.anomaly_min_pings ≤ c.ep.pings_affected ∧
       ¬(0 < c.ep.increase_percent ∧
         c.ep.increase_percent < cfg.anomaly_min_increase_percent) ∧
       ¬(c.ep.avg_latency < cfg.anomaly_threshold ∧
         c.ep.increase_percent < cfg.anomaly_min_increase_percent))) := by
  simp only [closeEpisode, Option.some.injEq] at hc
  subst hc
  exact ⟨rfl, retentionKeep_iff cfg st.anomaly_window.length (listMean st.anomaly_window) _⟩

theorem closeEpisode_detected (cfg : Config) (t : Timestamp) (ev : EvalOut)
    (st : DetectorState) :
    (closeEpisode cfg t ev st).state.detected_anomalies =
      st.detected_anomalies ++
        (((closeEpisode cfg t ev st).closed.toList.filter fun c => c.persisted).map
          ClosedEpisode.ep) := by
  simp only [closeEpisode]
  split <;> simp [List.filter_cons] <;> split <;> simp_all

theorem detect_closed_spec (cfg : Config) (lat : ℚ) (t : Timestamp) (n : ℕ)
    (st0 : DetectorState) (c : ClosedEpisode)
    (hc : (detect_anomaly cfg lat t n st0).closed = some c) :
    st0.in_anomaly = true ∧
    c.ep.pings_affected = st0.anomaly_window.length ∧
    (c.persisted = true ↔
      (cfg.anomaly_min_pings ≤ c.ep.pings_affected ∧
       ¬(0 < c.ep.increase_percent ∧
         c.ep.increase_percent < cfg.anomaly_min_increase_percent) ∧
       ¬(c.ep.avg_latency < cfg.anomaly_threshold ∧
         c.ep.increase_percent < cfg.anomaly_min_increase_percent))) := by
  have hw : (evalAnomaly cfg lat (appendBaseline st0 lat)).2.anomaly_window =
      st0.anomaly_window :=
    ((evalAnomaly_snd_fields cfg lat (appendBaseline st0 lat)).2.2.1).trans
      ((appendBaseline_fields st0 lat).2.2.1)
  unfold detect_anomaly at hc
  dsimp only at hc
  split at hc
  · split at hc <;> cases hc
  · split at hc
    · split at hc
      · next hin _ =>
        have hs := closeEpisode_spec _ _ _ _ _ hc
        rw [hw] at hs
        exact ⟨by simpa using hin, hs⟩
      · cases hc
    · cases hc

theorem detect_detected (cfg : Config) (lat : ℚ) (t : Timestamp) (n : ℕ)
    (st0 : DetectorState) :
    (detect_anomaly cfg lat t n st0).state.detected_anomalies =
      st0.detected_anomalies ++
        (((detect_anomaly cfg lat t n st0).closed.toList.filter fun c => c.persisted).map
          ClosedEpisode.ep) := by
  have hd : (evalAnomaly cfg lat (appendBaseline st0 lat)).2.detected_anomalies =
      st0.detected_anomalies :=
    ((evalAnomaly_snd_fields cfg lat (appendBaseline st0 lat)).2.2.2.2.1).trans
      ((appendBaseline_fields st0 lat).2.2.2.2.1)
  unfold detect_anomaly
  dsimp only
  split
  · split <;> simp [hd]
  · split
    · split
      · rw [closeEpisode_detected, hd]
      · simp [hd]
    · simp [hd]

theorem detect_inv (cfg : Config) (lat : ℚ) (t : Timestamp) (n : ℕ)
    (st0 : DetectorState)
    (h : st0.in_anomaly = true → st0.anomaly_window ≠ []) :
    (detect_anomaly cfg lat t n st0).state.in_anomaly = true →
      (detect_anomaly cfg lat t n st0).state.anomaly_window ≠ [] := by
  have hfields := evalAnomaly_snd_fields cfg lat (appendBaseline st0 lat)
  have hbfields := appendBaseline_fields st0 lat
  have hin : (evalAnomaly cfg lat (appendBaseline st0 lat)).2.in_anomaly = st0.in_anomaly :=
    (hfields.2.1).trans (hbfields.2.1)
  have hw : (evalAnomaly cfg lat (appendBaseline st0 lat)).2.anomaly_window =
      st0.anomaly_window :=
    (hfields.2.2.1).trans (hbfields.2.2.1)
  unfold detect_anomaly
  dsimp only
  split
  · split
    · intro _ habs
      simp at habs
    · intro _ habs
      simp at habs
  · split
    · split
      · rw [(closeEpisode_state_fields cfg t _ _).2.1]
        intro hfalse
        cases hfalse
      · rename_i ha hin0 hbuf
        intro _
        simpa [hw] using h (by simpa using hin0)
    · rename_i ha hin0
      intro habs
      rw [hin] at habs
      exact absurd habs hin0

theorem appendBaseline_stat_error (st : DetectorState) (lat : ℚ) :
    (appendBaseline st lat).stat_error = st.stat_error := by
  unfold appendBaseline
  split <;> rfl

theorem evalAnomaly_statComputedLen (cfg : Config) (lat : ℚ) (st : DetectorState) (n : ℕ)
    (h : (evalAnomaly cfg lat st).1.statComputedLen = some n) :
    cfg.anomaly_min_samples ≤ n ∧ n = st.baseline_latencies.length := by
  unfold evalAnomaly at h
  split at h
  · cases h
  · split at h
    · next hlen =>
      split at h
      · cases h
        exact ⟨hlen, rfl⟩
      · cases h
    · cases h

theorem detect_statComputedLen_eq (cfg : Config) (lat : ℚ) (t : Timestamp) (k : ℕ)
    (st0 : DetectorState) :
    (detect_anomaly cfg lat t k st0).statComputedLen =
      (evalAnomaly cfg lat (appendBaseline st0 lat)).1.statComputedLen := by
  unfold detect_anomaly
  dsimp only
  split
  · split <;> rfl
  · split
    · split
      · rfl
      · rfl
    · rfl

theorem detect_statChecked_eq (cfg : Config) (lat : ℚ) (t : Timestamp) (k : ℕ)
    (st0 : DetectorState) :
    (detect_anomaly cfg lat t k st0).statChecked =
      (evalAnomaly cfg lat (appendBaseline st0 lat)).1.statChecked := by
  unfold detect_anomaly
  dsimp only
  split
  · split <;> rfl
  · split
    · split
      · rfl
      · rfl
    · rfl

theorem evalAnomaly_stat_error (cfg : Config) (lat : ℚ) (st : DetectorState)
    (h2 : 2 ≤ cfg.anomaly_min_samples) :
    (evalAnomaly cfg lat st).2.stat_error = st.stat_error := by
  unfold evalAnomaly
  split
  · rfl
  · split
    · next hlen =>
      split
      · have hv : (sampleVariance st.baseline_latencies).isNone = false := by
          unfold sampleVariance
          split
          · next hlt => omega
          · rfl
        simp [hv]
      · rfl
    · rfl

theorem detect_stat_error (cfg : Config) (lat : ℚ) (t : Timestamp) (k : ℕ)
    (st0 : DetectorState) (h2 : 2 ≤ cfg.anomaly_min_samples) :
    (detect_anomaly cfg lat t k st0).state.stat_error = st0.stat_error := by
  have he : (evalAnomaly cfg lat (appendBaseline st0 lat)).2.stat_error = st0.stat_error :=
    (evalAnomaly_stat_error cfg lat _ h2).trans (appendBaseline_stat_error st0 lat)
  unfold detect_anomaly
  dsimp only
  split
  · split <;> exact he
  · split
    · split
      · exact he
      · exact he
    · exact he

theorem runFrom_C9_aux (cfg : Config) (xs : List ℚ) :
    ∀ (acc : RunOut) (i : ℕ),
      (∀ c ∈ acc.log, 1 ≤ c.ep.pings_affected) →
      (acc.final.in_anomaly = true → acc.final.anomaly_window ≠ []) →
      (∀ e ∈ acc.final.detected_anomalies, 1 ≤ e.pings_affected) →
      (∀ c ∈ (runFrom cfg acc i xs).log, 1 ≤ c.ep.pings_affected) ∧
      (∀ e ∈ (runFrom cfg acc i xs).final.detected_anomalies, 1 ≤ e.pings_affected) := by
  induction xs with
  | nil =>
    intro acc i h1 h2 h3
    exact ⟨h1, h3⟩
  | cons x xs ih =>
    intro acc i h1 h2 h3
    rw [runFrom]
    have hclosed : ∀ c, (detect_anomaly cfg x ⟨"", i⟩ (i + 1) acc.final).closed = some c →
        1 ≤ c.ep.pings_affected := by
      intro c hc
      obtain ⟨hin, hlen, _⟩ := detect_closed_spec _ _ _ _ _ _ hc
      have hne := h2 hin
      rw [hlen]
      exact List.length_pos.mpr hne
    apply ih
    · intro c hc
      rcases List.mem_append.mp hc with h | h
      · exact h1 c h
      · have : (detect_anomaly cfg x ⟨"", i⟩ (i + 1) acc.final).closed = some c := by
          rwa [← Option.mem_def, ← Option.mem_toList]
        exact hclosed c this
    · exact detect_inv cfg x ⟨"", i⟩ (i + 1) acc.final h2
    · intro e he
      rw [detect_detected] at he
      rcases List.mem_append.mp he with h | h
      · exact h3 e h
      · rcases List.mem_map.mp h with ⟨c, hcf, rfl⟩
        have hmem := (List.mem_filter.mp hcf).1
        have : (detect_anomaly cfg x ⟨"", i⟩ (i + 1) acc.final).closed = some c := by
          rwa [← Option.mem_def, ← Option.mem_toList]
        exact hclosed c this

theorem runFrom_C1_aux (cfg : Config) (xs : List ℚ) :
    ∀ (acc : RunOut) (i : ℕ),
      acc.final.detected_anomalies =
        ((acc.log.filter fun c => c.persisted).map ClosedEpisode.ep) →
      (∀ c ∈ acc.log, persistedIffFilters cfg c) →
      ((runFrom cfg acc i xs).final.detected_anomalies =
        (((runFrom cfg acc i xs).log.filter fun c => c.persisted).map ClosedEpisode.ep)) ∧
      ∀ c ∈ (runFrom cfg acc i xs).log, persistedIffFilters cfg c := by
  induction xs with
  | nil =>
    intro acc i h1 h2
    exact ⟨h1, h2⟩
  | cons x xs ih =>
    intro acc i h1 h2
    rw [runFrom]
    apply ih
    · show (detect_anomaly cfg x ⟨"", i⟩ (i + 1) acc.final).state.detected_anomalies = _
      rw [detect_detected, h1, List.filter_append, List.map_append]
    · intro c hc
      rcases List.mem_append.mp hc with h | h
      · exact h2 c h
      · have hcs : (detect_anomaly cfg x ⟨"", i⟩ (i + 1) acc.final).closed = some c := by
          rwa [← Option.mem_def, ← Option.mem_toList]
        exact (detect_closed_spec _ _ _ _ _ _ hcs).2.2

theorem runFrom_C6_aux (cfg : Config) (h2 : 2 ≤ cfg.anomaly_min_samples) (xs : List ℚ) :
    ∀ (acc : RunOut) (i : ℕ),
      acc.final.stat_error = false →
      (∀ n ∈ acc.statLens, cfg.anomaly_min_samples ≤ n) →
      (runFrom cfg acc i xs).final.stat_error = false ∧
      ∀ n ∈ (runFrom cfg acc i xs).statLens, cfg.anomaly_min_samples ≤ n := by
  induction xs with
  | nil =>
    intro acc i h1 hl
    exact ⟨h1, hl⟩
  | cons x xs ih =>
    intro acc i h1 hl
    rw [runFrom]
    apply ih
    · show (detect_anomaly cfg x ⟨"", i⟩ (i + 1) acc.final).state.stat_error = false
      rw [detect_stat_error cfg x _ _ _ h2, h1]
    · intro n hn
      rcases List.mem_append.mp hn with h | h
      · exact hl n h
      · have hsc : (detect_anomaly cfg x ⟨"", i⟩ (i + 1) acc.final).statComputedLen = some n := by
          rwa [← Option.mem_def, ← Option.mem_toList]
        rw [detect_statComputedLen_eq] at hsc
        exact (evalAnomaly_statComputedLen _ _ _ _ hsc).1

/-! ## Theorems: claims -/

/-- C9: on every sample stream from the initial state, every episode the
detector closes has a nonempty window, so no closed episode (and in
particular no persisted episode, whether read from the close log or from
`detected_anomalies`) has `pings_affected = 0`. -/
theorem C9_no_empty_episode (cfg : Config) (stream : List ℚ) :
    (∀ c ∈ (runDetect cfg stream).log, 1 ≤ c.ep.pings_affected) ∧
    (∀ e ∈ (runDetect cfg stream).final.detected_anomalies, 1 ≤ e.pings_affected) := by
  apply runFrom_C9_aux
  · intro c hc
    simp at hc
  · intro h
    cases h
  · intro e he
    simp [initDetector] at he

/-- C9 witness: the five-ping outage of `wStream` closes one episode, and
the theorem instantiates to a positive `pings_affected` for it. -/
theorem C9_witness :
    1 ≤ ((runDetect defaultConfig wStream).log.headD junkClosed).ep.pings_affected :=
  (C9_no_empty_episode defaultConfig wStream).1 _ (by decide)

/-- C1 amended: a closed episode is persisted (appended to
`detected_anomalies`, which is exactly the persisted sublist of the close
log) iff `pings_affected >= anomaly_min_pings`, AND the recorded percent
increase is `<= 0` (which includes the undefined case, recorded as `0`)
OR `>= anomaly_min_increase_percent`, AND NOT (episode average latency
below the fixed threshold with increase below the minimum).  The original
claim fails only in that an episode whose computed increase is zero or
negative is persisted (when the other filters pass) even though its
increase is defined and below `anomaly_min_increase_percent`;
`C1_counterexample` exhibits this. -/
theorem C1_amended (cfg : Config) (stream : List ℚ) :
    ((runDetect cfg stream).final.detected_anomalies =
      (((runDetect cfg stream).log.filter fun c => c.persisted).map ClosedEpisode.ep)) ∧
    ∀ c ∈ (runDetect cfg stream).log,
      (c.persisted = true ↔
        (cfg.anomaly_min_pings ≤ c.ep.pings_affected ∧
         (c.ep.increase_percent ≤ 0 ∨
           cfg.anomaly_min_increase_percent ≤ c.ep.increase_percent) ∧
         ¬(c.ep.avg_latency < cfg.anomaly_threshold ∧
           c.ep.increase_percent < cfg.anomaly_min_increase_percent))) := by
  obtain ⟨hd, hl⟩ := runFrom_C1_aux cfg stream ⟨initDetector, [], 0, []⟩ 0 (by simp [initDetector])
    (by intro c hc; simp at hc)
  refine ⟨hd, ?_⟩
  intro c hc
  refine Iff.trans (hl c hc) ?_
  rw [not_and_or, not_lt, not_lt]

/-- C1 witness: the amended retention rule instantiated at the single
episode closed by `wStream` under the default configuration. -/
theorem C1_witness :
    ((runDetect defaultConfig wStream).log.headD junkClosed).persisted = true ↔
      (defaultConfig.anomaly_min_pings ≤
          ((runDetect defaultConfig wStream).log.headD junkClosed).ep.pings_affected ∧
        (((runDetect defaultConfig wStream).log.headD junkClosed).ep.increase_percent ≤ 0 ∨
          defaultConfig.anomaly_min_increase_percent ≤
            ((runDetect defaultConfig wStream).log.headD junkClosed).ep.increase_percent) ∧
        ¬(((runDetect defaultConfig wStream).log.headD junkClosed).ep.avg_latency <
            defaultConfig.anomaly_threshold ∧
          ((runDetect defaultConfig wStream).log.headD junkClosed).ep.increase_percent <
            defaultConfig.anomaly_min_increase_percent)) :=
  (C1_amended defaultConfig wStream).2 _ (by decide)

/-- C6: with at least two required baseline samples (default 30), on every
stream the baseline mean/stdev recomputation only ever happens with at
least `anomaly_min_samples` entries in the window (the recorded
recomputation lengths witness this), so the `statistics.stdev` call can
never see fewer than two values and the run never records a statistics
error; moreover the fixed-threshold criterion is checked first: a sample
at or above the fixed threshold short-circuits the statistical branch
entirely. -/
theorem C6_baseline_guard (cfg : Config) (h2 : 2 ≤ cfg.anomaly_min_samples) :
    (∀ stream : List ℚ,
      (runDetect cfg stream).final.stat_error = false ∧
      ∀ n ∈ (runDetect cfg stream).statLens, cfg.anomaly_min_samples ≤ n) ∧
    (∀ (lat : ℚ) (t : Timestamp) (k : ℕ) (st : DetectorState),
      cfg.anomaly_threshold ≤ lat →
        (detect_anomaly cfg lat t k st).statChecked = false) := by
  constructor
  · intro stream
    apply runFrom_C6_aux cfg h2
    · rfl
    · intro n hn
      simp at hn
  · intro lat t k st h
    rw [detect_statChecked_eq]
    unfold evalAnomaly
    rw [if_pos h]

/-- C6 witness: the default configuration satisfies the hypothesis, and no
statistics error occurs along `wStream`. -/
theorem C6_witness :
    (runDetect defaultConfig wStream).final.stat_error = false :=
  ((C6_baseline_guard defaultConfig (by decide)).1 wStream).1

/-- C2 counterexample: on the single-sample stream `[150]` (default
configuration, fixed threshold 100), the sample is judged anomalous and
opens an episode, yet it is in `baseline_latencies` afterwards — the code
appends to the baseline (line 490) before judging the sample, so the
episode-opening anomalous sample does pollute the baseline, contradicting
the claim that a sample judged anomalous never enters it. -/
theorem C2_counterexample :
    (runDetect defaultConfig [150]).openCount = 1 ∧
    (runDetect defaultConfig [150]).final.in_anomaly = true ∧
    (runDetect defaultConfig [150]).final.baseline_latencies = [150] := by
  decide

/-- C2 amended: a sample is appended to the baseline window iff the
detector was not inside an anomaly when the sample arrived.  Hence
anomalous samples that continue an open episode (and the normal samples
of the confirmation buffer) never enter the baseline, but the anomalous
sample that opens an episode does enter it, because the append happens
before the sample is judged. -/
theorem C2_amended (cfg : Config) (lat : ℚ) (t : Timestamp) (n : ℕ)
    (st0 : DetectorState) :
    (detect_anomaly cfg lat t n st0).state.baseline_latencies =
      (if st0.in_anomaly = true then st0.baseline_latencies
       else dequeAppend 100 st0.baseline_latencies lat) := by
  have hb := (appendBaseline_fields st0 lat).1
  have he := (evalAnomaly_snd_fields cfg lat (appendBaseline st0 lat)).1
  unfold detect_anomaly
  dsimp only
  split <;> split <;> (try split) <;> simp_all [closeEpisode]

/-- C5: `reset_stats` is idempotent on the whole monitor state (counters,
min/max/mean, packet loss and retained latency history included), and the
list of detected anomalies survives any number of `reset_stats` calls
untouched. -/
theorem C5_reset_idempotent (m : NetworkMonitor) :
    reset_stats (reset_stats m) = reset_stats m ∧
    ∀ n : ℕ,
      (reset_stats^[n] m).detector.detected_anomalies =
        m.detector.detected_anomalies := by
  refine ⟨rfl, ?_⟩
  intro n
  induction n generalizing m with
  | zero => rfl
  | succ n ih =>
    rw [Function.iterate_succ_apply]
    exact (ih (reset_stats m)).trans rfl

/-- C10: calling `add_monitor` with `force_new = False` on a key that
already has a monitor returns the stored monitor itself and leaves the
manager (hence every field of that monitor) unchanged; the server,
interval and template arguments are ignored. -/
theorem C10_existing_key (mgr : DualWiFiMonitorManager) (ssid srv : String)
    (intv : ℚ) (tmpl : Option NetworkMonitor) (date : String)
    (m : NetworkMonitor) (h : dictFind mgr.monitors ssid = some m) :
    add_monitor mgr ssid srv intv tmpl false date = (mgr, m) := by
  unfold add_monitor
  simp [h]

/-- C10 witness: a manager already holding key `net-a` returns that very
monitor for a second `add` with different server, interval and template. -/
theorem C10_witness :
    add_monitor
        ⟨[("net-a", NetworkMonitor.create ("m0") (some ("net-a")) ("2025-01-01") 0)], 4⟩
        "net-a" "1.1.1.1" 2
        (some (NetworkMonitor.create ("tmpl") none ("2025-01-02") 50)) false ("2025-01-02") =
      (⟨[("net-a", NetworkMonitor.create ("m0") (some ("net-a")) ("2025-01-01") 0)], 4⟩,
        NetworkMonitor.create ("m0") (some ("net-a")) ("2025-01-01") 0) :=
  C10_existing_key _ _ _ _ _ _ _ (by rfl)

/-- C1 counterexample: on `c1Stream` with the default configuration the
run closes two episodes, and the second is persisted even though its
percent increase was computed (baseline of 11 samples with positive
average) and is below `anomaly_min_increase_percent` — it is negative,
because the episode-opening 10000 ms spike sits in the baseline.  The
claimed retention rule (`c1RetentionSpec`) would discard it, so the
claimed iff fails on this run. -/
theorem C1_counterexample :
    ¬ ∀ c ∈ (runDetect defaultConfig c1Stream).log,
        (c.persisted = true ↔ c1RetentionSpec defaultConfig c) := by
  decide

/-- C3 counterexample: `c3Stream` has the claimed shape for the default
configuration — one sample at or above the fixed threshold T = 100
followed by M = 39 ≥ `anomaly_min_consecutive_normal` = 10 samples below
it — yet two episodes are opened, not one: the trailing normals grow the
baseline to `anomaly_min_samples`, and the last sample (90 ms) exceeds
the dynamic statistical threshold of the spike-polluted baseline. -/
theorem C3_counterexample :
    ((c3Stream.take 1).all fun x => decide (100 ≤ x)) = true ∧
    ((c3Stream.drop 1).all fun x => decide (x < 100)) = true ∧
    (c3Stream.drop 1).length = 39 ∧
    (runDetect defaultConfig c3Stream).openCount = 2 := by
  decide

theorem monitorTick_stats (m : NetworkMonitor) (store : FileStore) (x : Option ℚ)
    (ts : Timestamp) :
    (monitorTick m store x ts).1.stats.total_pings = m.stats.total_pings + 1 ∧
    (monitorTick m store x ts).1.stats.successful_pings +
        (monitorTick m store x ts).1.stats.failed_pings =
      m.stats.successful_pings + m.stats.failed_pings + 1 ∧
    (monitorTick m store x ts).1.stats.packet_loss =
      ((monitorTick m store x ts).1.stats.failed_pings : ℚ) /
        ((monitorTick m store x ts).1.stats.total_pings : ℚ) * 100 := by
  cases x with
  | some lat =>
    unfold monitorTick
    dsimp only
    split
    · refine ⟨rfl, ?_, ?_⟩
      · dsimp only
        omega
      · dsimp only
        rw [if_pos (Nat.succ_pos _), qMul_eq, qDiv_eq]
    · refine ⟨rfl, ?_, ?_⟩
      · dsimp only
        omega
      · dsimp only
        rw [if_pos (Nat.succ_pos _), qMul_eq, qDiv_eq]
  | none =>
    unfold monitorTick
    dsimp only
    split
    · refine ⟨rfl, ?_, ?_⟩
      · dsimp only
        omega
      · dsimp only
        rw [if_pos (Nat.succ_pos _), qMul_eq, qDiv_eq]
    · refine ⟨rfl, ?_, ?_⟩
      · dsimp only
        omega
      · dsimp only
        rw [if_pos (Nat.succ_pos _), qMul_eq, qDiv_eq]

theorem runLoop_C4_aux (xs : List (Option ℚ)) :
    ∀ (ms : NetworkMonitor × FileStore) (i : ℕ),
      (ms.1.stats.successful_pings + ms.1.stats.failed_pings = ms.1.stats.total_pings ∧
       ms.1.stats.packet_loss =
         (ms.1.stats.failed_pings : ℚ) / (ms.1.stats.total_pings : ℚ) * 100) →
      ((runLoop ms i xs).1.stats.successful_pings + (runLoop ms i xs).1.stats.failed_pings =
         (runLoop ms i xs).1.stats.total_pings ∧
       (runLoop ms i xs).1.stats.packet_loss =
         ((runLoop ms i xs).1.stats.failed_pings : ℚ) /
           ((runLoop ms i xs).1.stats.total_pings : ℚ) * 100) := by
  induction xs with
  | nil =>
    intro ms i h
    exact h
  | cons x xs ih =>
    intro ms i h
    obtain ⟨m, store⟩ := ms
    dsimp only at h
    rw [runLoop]
    apply ih
    obtain ⟨ht, hsum, hpl⟩ := monitorTick_stats m store x ⟨"", i⟩
    refine ⟨?_, hpl⟩
    have hs := h.1
    omega

theorem flush_log_buffer_fst (buf : List LogEntry) (store : FileStore) :
    (flush_log_buffer buf store).1 = [] := by
  cases buf <;> rfl

theorem dictFind_insert_self (l : List (String × NetworkMonitor)) (k : String)
    (v : NetworkMonitor) : dictFind (dictInsert l k v) k = some v := by
  induction l with
  | nil => simp [dictInsert, dictFind]
  | cons kv rest ih =>
    obtain ⟨k0, v0⟩ := kv
    by_cases h : k0 = k
    · subst h
      simp [dictInsert, dictFind]
    · simp [dictInsert, dictFind, h, ih]

theorem dictFind_insert_ne (l : List (String × NetworkMonitor)) (k k' : String)
    (v : NetworkMonitor) (h : k' ≠ k) :
    dictFind (dictInsert l k v) k' = dictFind l k' := by
  induction l with
  | nil => simp [dictInsert, dictFind, Ne.symm h]
  | cons kv rest ih =>
    obtain ⟨k0, v0⟩ := kv
    by_cases h0 : k0 = k
    · subst h0
      simp [dictInsert, dictFind, Ne.symm h]
    · simp [dictInsert, dictFind, h0, ih]

theorem add_monitor_creates (mgr : DualWiFiMonitorManager) (k s : String) (i : ℚ)
    (mm : Option NetworkMonitor) (d : String)
    (h : dictFind mgr.monitors k = none) :
    add_monitor mgr k s i mm false d =
      ({ monitors := dictInsert mgr.monitors k
           (buildDualMonitor mgr.monitors.length mgr.nextAlloc k s i mm d)
         nextAlloc := mgr.nextAlloc + 4 },
       buildDualMonitor mgr.monitors.length mgr.nextAlloc k s i mm d) := by
  unfold add_monitor
  rw [if_pos (Or.inl h)]
  simp

theorem buildDualMonitor_config (n a : ℕ) (ssid srv : String) (i : ℚ)
    (t : NetworkMonitor) (d : String) :
    configCopied (buildDualMonitor n a ssid srv i (some t) d) t :=
  ⟨rfl, rfl, rfl, rfl, rfl, rfl⟩

theorem buildDualMonitor_refs (n a : ℕ) (ssid srv : String) (i : ℚ)
    (mm : Option NetworkMonitor) (d : String) :
    refsOf (buildDualMonitor n a ssid srv i mm d) = [a, a + 1, a + 2, a + 3] := by
  cases mm <;> rfl

/-- C4: for every sequence of probe results (successes and failures in any
order) fed to the monitor loop from a fresh monitor, the session counters
satisfy `successful_pings + failed_pings = total_pings`, and `packet_loss`
equals `failed_pings / total_pings` as a percentage.  (The packet-loss
identity even holds before the first sample because rational division by
zero is zero; after any sample the loop recomputes it with a positive
total, which is the content of the claim.) -/
theorem C4_session_counters (samples : List (Option ℚ)) :
    ((runLoop (initialMonitor, ([] : FileStore)) 0 samples).1.stats.successful_pings +
        (runLoop (initialMonitor, ([] : FileStore)) 0 samples).1.stats.failed_pings =
      (runLoop (initialMonitor, ([] : FileStore)) 0 samples).1.stats.total_pings) ∧
    (runLoop (initialMonitor, ([] : FileStore)) 0 samples).1.stats.packet_loss =
      ((runLoop (initialMonitor, ([] : FileStore)) 0 samples).1.stats.failed_pings : ℚ) /
        ((runLoop (initialMonitor, ([] : FileStore)) 0 samples).1.stats.total_pings : ℚ) *
        100 := by
  apply runLoop_C4_aux
  refine ⟨rfl, ?_⟩
  show (0 : ℚ) = ((0 : ℕ) : ℚ) / ((0 : ℕ) : ℚ) * 100
  simp

/-- C8: after `stop_monitoring` the in-memory probe-log buffer is empty,
the running flag is cleared, and every record that was buffered at the
moment of the call has been appended to the dated log file (the one named
after the first buffered record's date), in order, after the rows already
in that file — no buffered record is discarded by stopping. -/
theorem C8_stop_flushes (m : NetworkMonitor) (store : FileStore) :
    (stop_monitoring m store).1.log_buffer = [] ∧
    (stop_monitoring m store).1.monitoring = false ∧
    ∀ (e : LogEntry) (rest : List LogEntry), m.log_buffer = e :: rest →
      fileRows (stop_monitoring m store).2 (logFileName e) =
        fileRows store (logFileName e) ++ m.log_buffer := by
  refine ⟨flush_log_buffer_fst m.log_buffer store, rfl, ?_⟩
  intro e rest hb
  show fileRows (flush_log_buffer m.log_buffer store).2 (logFileName e) = _
  rw [hb]
  show fileRows (storeAppend store (logFileName e) (e :: rest)) (logFileName e) = _
  rw [fileRows_storeAppend_self]

/-- C8 witness: stopping a monitor holding one buffered record appends
exactly that record to the dated file. -/
theorem C8_witness :
    fileRows (stop_monitoring w8Monitor ([] : FileStore)).2 (logFileName w8Entry) =
      fileRows ([] : FileStore) (logFileName w8Entry) ++ w8Monitor.log_buffer :=
  (C8_stop_flushes w8Monitor ([] : FileStore)).2.2 w8Entry [] rfl

/-- C7: creating two monitors through `add_monitor` with the same template
snapshots the template's six anomaly-configuration values into each
instance by value (so no later mutation of the template object can reach
them — the instances store copies, and the manager retains the first
instance unchanged across the second add), and the two instances share
none of their mutable collections: their ping-history, baseline,
episode-window and detected-episode identities are pairwise distinct, and
distinct from the template's. -/
theorem C7_config_copied (mgr : DualWiFiMonitorManager) (t : NetworkMonitor)
    (k1 k2 s1 s2 : String) (i1 i2 : ℚ) (d1 d2 : String)
    (h1 : dictFind mgr.monitors k1 = none)
    (h2 : dictFind mgr.monitors k2 = none)
    (hk : k1 ≠ k2)
    (ht : ∀ r ∈ refsOf t, r < mgr.nextAlloc) :
    configCopied (add_monitor mgr k1 s1 i1 (some t) false d1).2 t ∧
    configCopied
      (add_monitor (add_monitor mgr k1 s1 i1 (some t) false d1).1 k2 s2 i2 (some t) false
        d2).2 t ∧
    dictFind
        (add_monitor (add_monitor mgr k1 s1 i1 (some t) false d1).1 k2 s2 i2 (some t) false
          d2).1.monitors k1 =
      some (add_monitor mgr k1 s1 i1 (some t) false d1).2 ∧
    dictFind
        (add_monitor (add_monitor mgr k1 s1 i1 (some t) false d1).1 k2 s2 i2 (some t) false
          d2).1.monitors k2 =
      some
        (add_monitor (add_monitor mgr k1 s1 i1 (some t) false d1).1 k2 s2 i2 (some t) false
          d2).2 ∧
    (∀ r1 ∈ refsOf (add_monitor mgr k1 s1 i1 (some t) false d1).2,
      ∀ r2 ∈ refsOf
          (add_monitor (add_monitor mgr k1 s1 i1 (some t) false d1).1 k2 s2 i2 (some t)
            false d2).2, r1 ≠ r2) ∧
    (∀ r1 ∈ refsOf (add_monitor mgr k1 s1 i1 (some t) false d1).2,
      ∀ rt ∈ refsOf t, r1 ≠ rt) ∧
    (∀ r2 ∈ refsOf
        (add_monitor (add_monitor mgr k1 s1 i1 (some t) false d1).1 k2 s2 i2 (some t) false
          d2).2,
      ∀ rt ∈ refsOf t, r2 ≠ rt) := by
  have e1 := add_monitor_creates mgr k1 s1 i1 (some t) d1 h1
  have h2' : dictFind (add_monitor mgr k1 s1 i1 (some t) false d1).1.monitors k2 = none := by
    rw [e1]
    exact (dictFind_insert_ne _ _ _ _ (Ne.symm hk)).trans h2
  have e2 := add_monitor_creates (add_monitor mgr k1 s1 i1 (some t) false d1).1 k2 s2 i2
    (some t) d2 h2'
  have halloc : (add_monitor mgr k1 s1 i1 (some t) false d1).1.nextAlloc =
      mgr.nextAlloc + 4 := by
    rw [e1]
  refine ⟨?_, ?_, ?_, ?_, ?_, ?_, ?_⟩
  · rw [e1]
    exact buildDualMonitor_config _ _ _ _ _ _ _
  · rw [e2]
    exact buildDualMonitor_config _ _ _ _ _ _ _
  · rw [e2]
    show dictFind (dictInsert _ k2 _) k1 = _
    rw [dictFind_insert_ne _ _ _ _ hk, e1]
    show dictFind (dictInsert _ k1 _) k1 = _
    rw [dictFind_insert_self]
  · rw [e2]
    show dictFind (dictInsert _ k2 _) k2 = _
    rw [dictFind_insert_self]
  · intro r1 hr1 r2 hr2
    rw [e1] at hr1
    rw [e2, halloc] at hr2
    rw [buildDualMonitor_refs] at hr1 hr2
    simp only [List.mem_cons, List.not_mem_nil, or_false] at hr1 hr2
    omega
  · intro r1 hr1 rt hrt
    rw [e1] at hr1
    rw [buildDualMonitor_refs] at hr1
    have := ht rt hrt
    simp only [List.mem_cons, List.not_mem_nil, or_false] at hr1
    omega
  · intro r2 hr2 rt hrt
    rw [e2, halloc] at hr2
    rw [buildDualMonitor_refs] at hr2
    have := ht rt hrt
    simp only [List.mem_cons, List.not_mem_nil, or_false] at hr2
    omega

theorem step_continue (cfg : Config) (lat : ℚ) (t : Timestamp) (n : ℕ)
    (st0 : DetectorState) (hin : st0.in_anomaly = true)
    (hfix : cfg.anomaly_threshold ≤ lat) :
    detect_anomaly cfg lat t n st0 =
      { state :=
          { st0 with
            anomaly_window := st0.anomaly_window ++ lat :: st0.anomaly_normal_buffer
            anomaly_normal_buffer := [] }
        opened := false
        closed := none
        statChecked := false
        statComputedLen := none } := by
  simp [detect_anomaly, appendBaseline, evalAnomaly, hin, hfix]

theorem step_open (cfg : Config) (lat : ℚ) (t : Timestamp) (n : ℕ)
    (st0 : DetectorState) (hnin : st0.in_anomaly = false)
    (hfix : cfg.anomaly_threshold ≤ lat) :
    detect_anomaly cfg lat t n st0 =
      { state :=
          { st0 with
            baseline_latencies := dequeAppend 100 st0.baseline_latencies lat
            baseline_cache_count := st0.baseline_cache_count + 1
            in_anomaly := true
            anomaly_start_time := t
            anomaly_start_index := n
            anomaly_window := [lat]
            anomaly_normal_buffer := []
            anomaly_reason := DetectionMethod.fixedThreshold }
        opened := true
        closed := none
        statChecked := false
        statComputedLen := none } := by
  simp [detect_anomaly, appendBaseline, evalAnomaly, hnin, hfix]

theorem step_normal_quiet (cfg : Config) (lat : ℚ) (t : Timestamp) (n : ℕ)
    (st0 : DetectorState) (hnin : st0.in_anomaly = false)
    (hnfix : ¬cfg.anomaly_threshold ≤ lat)
    (hlen : ¬cfg.anomaly_min_samples ≤ (dequeAppend 100 st0.baseline_latencies lat).length) :
    detect_anomaly cfg lat t n st0 =
      { state :=
          { st0 with
            baseline_latencies := dequeAppend 100 st0.baseline_latencies lat
            baseline_cache_count := st0.baseline_cache_count + 1 }
        opened := false
        closed := none
        statChecked := false
        statComputedLen := none } := by
  simp [detect_anomaly, appendBaseline, evalAnomaly, hnin, hnfix, hlen]

theorem step_buffer (cfg : Config) (lat : ℚ) (t : Timestamp) (n : ℕ)
    (st0 : DetectorState) (hin : st0.in_anomaly = true)
    (hnfix : ¬cfg.anomaly_threshold ≤ lat)
    (hlen : ¬cfg.anomaly_min_samples ≤ st0.baseline_latencies.length)
    (hbuf : ¬cfg.anomaly_min_consecutive_normal ≤ st0.anomaly_normal_buffer.length + 1) :
    detect_anomaly cfg lat t n st0 =
      { state := { st0 with anomaly_normal_buffer := st0.anomaly_normal_buffer ++ [lat] }
        opened := false
        closed := none
        statChecked := false
        statComputedLen := none } := by
  simp [detect_anomaly, appendBaseline, evalAnomaly, hin, hnfix, hlen, hbuf]

theorem step_close (cfg : Config) (lat : ℚ) (t : Timestamp) (n : ℕ)
    (st0 : DetectorState) (hin : st0.in_anomaly = true)
    (hnfix : ¬cfg.anomaly_threshold ≤ lat)
    (hlen : ¬cfg.anomaly_min_samples ≤ st0.baseline_latencies.length)
    (hbuf : cfg.anomaly_min_consecutive_normal ≤ st0.anomaly_normal_buffer.length + 1) :
    detect_anomaly cfg lat t n st0 = closeEpisode cfg t ⟨false, false, none⟩ st0 := by
  simp [detect_anomaly, appendBaseline, evalAnomaly, hin, hnfix, hlen, hbuf]

theorem closeEpisode_out_small (cfg : Config) (t : Timestamp) (ev : EvalOut)
    (st : DetectorState) (hb : st.baseline_latencies.length < 10) :
    (closeEpisode cfg t ev st).closed =
      some
        ⟨{ start_time := st.anomaly_start_time
           end_time := t
           duration_seconds := t.time - st.anomaly_start_time.time
           avg_latency := listMean st.anomaly_window
           max_latency := listMax st.anomaly_window
           min_latency := listMin st.anomaly_window
           pings_affected := st.anomaly_window.length
           start_ping_number := st.anomaly_start_index
           detection_method := st.anomaly_reason
           baseline_avg := 0
           baseline_min := 0
           baseline_max := 0
           increase_percent := 0 },
         retentionKeep cfg st.anomaly_window.length (listMean st.anomaly_window) 0,
         false⟩ := by
  simp [closeEpisode, Nat.not_le.mpr hb]

theorem runFrom_append (cfg : Config) (l1 : List ℚ) :
    ∀ (l2 : List ℚ) (acc : RunOut) (i : ℕ),
      runFrom cfg acc i (l1 ++ l2) = runFrom cfg (runFrom cfg acc i l1) (i + l1.length) l2 := by
  induction l1 with
  | nil =>
    intro l2 acc i
    simp [runFrom]
  | cons x l1 ih =>
    intro l2 acc i
    have hlen : i + (x :: l1).length = i + 1 + l1.length := by
      rw [List.length_cons]
      omega
    rw [List.cons_append, runFrom, ih, runFrom, hlen]

theorem runFrom_anomalous (cfg : Config) (zs : List ℚ) :
    ∀ (acc : RunOut) (i : ℕ),
      acc.final.in_anomaly = true →
      acc.final.anomaly_normal_buffer = [] →
      (∀ z ∈ zs, cfg.anomaly_threshold ≤ z) →
      (runFrom cfg acc i zs).final.in_anomaly = true ∧
      (runFrom cfg acc i zs).final.anomaly_window = acc.final.anomaly_window ++ zs ∧
      (runFrom cfg acc i zs).final.anomaly_normal_buffer = [] ∧
      (runFrom cfg acc i zs).final.baseline_latencies = acc.final.baseline_latencies ∧
      (runFrom cfg acc i zs).log = acc.log ∧
      (runFrom cfg acc i zs).openCount = acc.openCount ∧
      (runFrom cfg acc i zs).statLens = acc.statLens := by
  induction zs with
  | nil =>
    intro acc i hin hbuf _
    exact ⟨hin, by simp [runFrom], hbuf, rfl, rfl, rfl, rfl⟩
  | cons z zs ih =>
    intro acc i hin hbuf hz
    rw [runFrom, step_continue cfg z ⟨"", i⟩ (i + 1) acc.final hin (hz z (by simp))]
    simp only [Option.toList_none, List.append_nil, if_neg Bool.false_ne_true, Nat.add_zero]
    obtain ⟨g1, g2, g3, g4, g5, g6, g7⟩ := ih
      ⟨{ acc.final with
          anomaly_window := acc.final.anomaly_window ++ z :: acc.final.anomaly_normal_buffer
          anomaly_normal_buffer := [] }, acc.log, acc.openCount, acc.statLens⟩
      (i + 1) hin rfl (fun z hz' => hz z (by simp [hz']))
    dsimp only at g1 g2 g3 g4 g5 g6 g7
    refine ⟨g1, ?_, g3, g4, g5, g6, g7⟩
    rw [g2, hbuf]
    simp

theorem runFrom_closing (cfg : Config) (ys : List ℚ) :
    ∀ (acc : RunOut) (i : ℕ),
      acc.final.in_anomaly = true →
      ¬cfg.anomaly_min_samples ≤ acc.final.baseline_latencies.length →
      acc.final.baseline_latencies.length < 10 →
      (∀ y ∈ ys, y < cfg.anomaly_threshold) →
      acc.final.anomaly_normal_buffer.length + ys.length =
        cfg.anomaly_min_consecutive_normal →
      1 ≤ ys.length →
      (runFrom cfg acc i ys).final.in_anomaly = false ∧
      (runFrom cfg acc i ys).final.anomaly_window = [] ∧
      (runFrom cfg acc i ys).final.anomaly_normal_buffer = [] ∧
      (runFrom cfg acc i ys).final.baseline_latencies = acc.final.baseline_latencies ∧
      (runFrom cfg acc i ys).openCount = acc.openCount ∧
      (runFrom cfg acc i ys).statLens = acc.statLens ∧
      ∃ c, (runFrom cfg acc i ys).log = acc.log ++ [c] ∧
        c.ep.pings_affected = acc.final.anomaly_window.length ∧
        c.persisted =
          retentionKeep cfg acc.final.anomaly_window.length
            (listMean acc.final.anomaly_window) 0 := by
  induction ys with
  | nil =>
    intro acc i _ _ _ _ _ habs
    simp at habs
  | cons y rest ih =>
    intro acc i hin hlen hb10 hy hcount _
    cases rest with
    | nil =>
      have hbuf : cfg.anomaly_min_consecutive_normal ≤
          acc.final.anomaly_normal_buffer.length + 1 := by
        simp at hcount
        omega
      rw [runFrom,
        step_close cfg y ⟨"", i⟩ (i + 1) acc.final hin
          (not_le.mpr (hy y (by simp))) hlen hbuf]
      rw [runFrom]
      dsimp only
      have hst := closeEpisode_state_fields cfg ⟨"", i⟩ ⟨false, false, none⟩ acc.final
      have hcl := closeEpisode_out_small cfg ⟨"", i⟩ ⟨false, false, none⟩ acc.final hb10
      refine ⟨hst.2.1, hst.2.2.1, hst.2.2.2, hst.1, ?_, ?_, ?_⟩
      · simp [closeEpisode]
      · simp [closeEpisode]
      · rw [hcl]
        simp only [Option.toList_some]
        exact ⟨_, rfl, rfl, rfl⟩
    | cons r rs =>
      have hbufne : ¬cfg.anomaly_min_consecutive_normal ≤
          acc.final.anomaly_normal_buffer.length + 1 := by
        simp at hcount
        omega
      rw [runFrom,
        step_buffer cfg y ⟨"", i⟩ (i + 1) acc.final hin
          (not_le.mpr (hy y (by simp))) hlen hbufne]
      simp only [Option.toList_none, List.append_nil, if_neg Bool.false_ne_true, Nat.add_zero]
      obtain ⟨g1, g2, g3, g4, g5, g6, g7⟩ := ih
        ⟨{ acc.final with
            anomaly_normal_buffer := acc.final.anomaly_normal_buffer ++ [y] },
          acc.log, acc.openCount, acc.statLens⟩
        (i + 1) hin hlen hb10 (fun z hz' => hy z (by simp [hz']))
        (by
          dsimp only
          rw [List.length_append]
          simp only [List.length_cons] at hcount ⊢
          simp
          omega)
        (by simp)
      dsimp only at g1 g2 g3 g4 g5 g6 g7
      exact ⟨g1, g2, g3, g4, g5, g6, g7⟩

theorem runFrom_quiet (cfg : Config) (ys : List ℚ) :
    ∀ (acc : RunOut) (i : ℕ),
      acc.final.in_anomaly = false →
      (∀ y ∈ ys, y < cfg.anomaly_threshold) →
      acc.final.baseline_latencies.length + ys.length < cfg.anomaly_min_samples →
      (runFrom cfg acc i ys).log = acc.log ∧
      (runFrom cfg acc i ys).openCount = acc.openCount ∧
      (runFrom cfg acc i ys).final.in_anomaly = false := by
  induction ys with
  | nil =>
    intro acc i hnin _ _
    exact ⟨rfl, rfl, hnin⟩
  | cons y rest ih =>
    intro acc i hnin hy hbound
    have hlen' : (dequeAppend 100 acc.final.baseline_latencies y).length ≤
        acc.final.baseline_latencies.length + 1 := by
      rw [dequeAppend_length]
      omega
    have hnle : ¬cfg.anomaly_min_samples ≤
        (dequeAppend 100 acc.final.baseline_latencies y).length := by
      simp at hbound
      omega
    rw [runFrom,
      step_normal_quiet cfg y ⟨"", i⟩ (i + 1) acc.final hnin
        (not_le.mpr (hy y (by simp))) hnle]
    simp only [Option.toList_none, List.append_nil, if_neg Bool.false_ne_true, Nat.add_zero]
    obtain ⟨g1, g2, g3⟩ := ih
      ⟨{ acc.final with
          baseline_latencies := dequeAppend 100 acc.final.baseline_latencies y
          baseline_cache_count := acc.final.baseline_cache_count + 1 },
        acc.log, acc.openCount, acc.statLens⟩
      (i + 1) hnin (fun z hz' => hy z (by simp [hz']))
      (by
        dsimp only
        simp only [List.length_cons] at hbound
        omega)
    exact ⟨g1, g2, g3⟩

theorem listMean_ge (T : ℚ) (xs : List ℚ) (hne : xs ≠ []) (h : ∀ x ∈ xs, T ≤ x) :
    T ≤ listMean xs := by
  rw [listMean_eq]
  have hlen : 0 < ((xs.length : ℚ)) := by
    have : 0 < xs.length := List.length_pos.mpr hne
    exact_mod_cast this
  rw [le_div_iff₀ hlen]
  have key : ∀ l : List ℚ, (∀ x ∈ l, T ≤ x) → T * (l.length : ℚ) ≤ l.sum := by
    intro l
    induction l with
    | nil => intro _; simp
    | cons a l ihl =>
      intro ha
      have h1 := ha a (by simp)
      have h2 := ihl fun x hx => ha x (by simp [hx])
      rw [List.sum_cons, List.length_cons]
      push_cast
      nlinarith
  exact key xs h

/-- C3 amended: for a fixed threshold and a stream of N ≥ 1 samples at or
above it followed by M samples below it with
`anomaly_min_consecutive_normal ≤ M`, exactly one episode is opened and
exactly one close is confirmed, with `pings_affected = N`, and it is
persisted iff `anomaly_min_pings ≤ N` — provided additionally
`M + 1 < anomaly_min_samples + anomaly_min_consecutive_normal`, so the
trailing normals cannot grow the baseline to the statistical criterion's
activation point, and `2 ≤ anomaly_min_samples` (the default is 30).
Without the bound on M the claim is false: see `C3_counterexample`. -/
theorem C3_amended (cfg : Config) (xs ys : List ℚ)
    (hms : 2 ≤ cfg.anomaly_min_samples)
    (hmc : 1 ≤ cfg.anomaly_min_consecutive_normal)
    (hxs : xs ≠ [])
    (hxsT : ∀ x ∈ xs, cfg.anomaly_threshold ≤ x)
    (hyslen : cfg.anomaly_min_consecutive_normal ≤ ys.length)
    (hysbound : ys.length + 1 < cfg.anomaly_min_samples + cfg.anomaly_min_consecutive_normal)
    (hysT : ∀ y ∈ ys, y < cfg.anomaly_threshold) :
    (runDetect cfg (xs ++ ys)).openCount = 1 ∧
    (runDetect cfg (xs ++ ys)).log.length = 1 ∧
    ∀ c ∈ (runDetect cfg (xs ++ ys)).log,
      c.ep.pings_affected = xs.length ∧
      (c.persisted = true ↔ cfg.anomaly_min_pings ≤ xs.length) := by
  obtain ⟨x0, xr, rfl⟩ := List.exists_cons_of_ne_nil hxs
  have hsplit : ys = ys.take cfg.anomaly_min_consecutive_normal ++
      ys.drop cfg.anomaly_min_consecutive_normal := (List.take_append_drop _ _).symm
  have htklen : (ys.take cfg.anomaly_min_consecutive_normal).length =
      cfg.anomaly_min_consecutive_normal := by
    rw [List.length_take]
    omega
  have hdplen : (ys.drop cfg.anomaly_min_consecutive_normal).length =
      ys.length - cfg.anomaly_min_consecutive_normal := List.length_drop _ _
  have hstep1 : runFrom cfg ⟨initDetector, [], 0, []⟩ 0 (x0 :: xr) =
      runFrom cfg ⟨openedState x0, [], 1, []⟩ 1 xr := by
    rw [runFrom, step_open cfg x0 ⟨"", 0⟩ 1 initDetector rfl (hxsT x0 (by simp))]
    simp [dequeAppend, initDetector, openedState]
  rw [runDetect, hsplit, ← List.append_assoc,
    runFrom_append cfg ((x0 :: xr) ++ ys.take cfg.anomaly_min_consecutive_normal),
    runFrom_append cfg (x0 :: xr), hstep1]
  obtain ⟨a1, a2, a3, a4, a5, a6, a7⟩ := runFrom_anomalous cfg xr
    ⟨openedState x0, [], 1, []⟩ 1 rfl rfl (fun z hz => hxsT z (by simp [hz]))
  have hbase : (runFrom cfg ⟨openedState x0, [], 1, []⟩ 1 xr).final.baseline_latencies =
      [x0] := a4.trans rfl
  have hwin : (runFrom cfg ⟨openedState x0, [], 1, []⟩ 1 xr).final.anomaly_window =
      x0 :: xr := a2.trans (by simp [openedState])
  obtain ⟨b1, b2, b3, b4, b5, b6, c, hclog, hcp, hcpers⟩ := runFrom_closing cfg
    (ys.take cfg.anomaly_min_consecutive_normal)
    (runFrom cfg ⟨openedState x0, [], 1, []⟩ 1 xr)
    (0 + (x0 :: xr).length) a1
    (by rw [hbase]; simp; omega)
    (by rw [hbase]; simp)
    (fun y hy => hysT y (List.take_subset _ _ hy))
    (by rw [a3, htklen]; simp [openedState])
    (by rw [htklen]; omega)
  obtain ⟨cc1, cc2, cc3⟩ := runFrom_quiet cfg (ys.drop cfg.anomaly_min_consecutive_normal)
    (runFrom cfg (runFrom cfg ⟨openedState x0, [], 1, []⟩ 1 xr)
      (0 + (x0 :: xr).length) (ys.take cfg.anomaly_min_consecutive_normal))
    (0 + ((x0 :: xr) ++ ys.take cfg.anomaly_min_consecutive_normal).length) b1
    (fun y hy => hysT y (List.drop_subset _ _ hy))
    (by rw [b4, hbase, hdplen]; simp; omega)
  refine ⟨?_, ?_, ?_⟩
  · rw [cc2, b5, a6]
  · rw [cc1, hclog, a5]
    simp
  · intro c' hc'
    rw [cc1, hclog, a5] at hc'
    simp only [List.nil_append, List.mem_singleton] at hc'
    subst hc'
    have hmean := listMean_ge cfg.anomaly_threshold (x0 :: xr) (by simp) hxsT
    constructor
    · rw [hcp, hwin]
    · rw [hcpers, hwin, retentionKeep_iff]
      simp [lt_self_iff_false, not_lt.mpr hmean]

/-- C3 witness: the default configuration on five samples at 100 ms
followed by ten at 1 ms opens exactly one episode. -/
theorem C3_witness :
    (runDetect defaultConfig ([100, 100, 100, 100, 100] ++ List.replicate 10 1)).openCount =
      1 :=
  (C3_amended defaultConfig [100, 100, 100, 100, 100] (List.replicate 10 1) (by decide)
    (by decide) (by decide) (by decide) (by decide) (by decide) (by decide)).1

/-- C7 witness: two adds on an empty manager (allocator at 4) with the
default-configured template `w7t` (identities 0-3). -/
theorem C7_witness :
    configCopied
      (add_monitor ⟨[], 4⟩ ("net-a") ("8.8.8.8") 1 (some w7t) false ("2025-01-01")).2
      w7t :=
  (C7_config_copied ⟨[], 4⟩ w7t ("net-a") ("net-b") ("8.8.8.8") ("1.1.1.1") 1 1
    ("2025-01-01") ("2025-01-01") rfl rfl (by decide) (by decide)).1

end NetMon
